import Mathlib

/-!
Model of the VL53L1X calibration core declared in vl53l1x_api_calibration.h:
reference SPAD characterisation, device test, SPAD rate map and offset
calibration.  The repository ships only the header (declarations and
documentation); the observable behaviour of each operation is therefore
modelled from the specification, as noted on each definition.
-/

/-- Result and warning codes of the calibration API, as listed in the
header documentation of vl53l1x_api_calibration.h. -/
inductive VL53L1_Error where
  | ERROR_NONE
  | ERROR_CONTROL_INTERFACE
  | ERROR_TIME_OUT
  | ERROR_INVALID_PARAMS
  | WARNING_REF_SPAD_CHAR_NOT_ENOUGH_SPADS
  | WARNING_REF_SPAD_CHAR_RATE_TOO_HIGH
  | WARNING_REF_SPAD_CHAR_RATE_TOO_LOW
  | WARNING_OFFSET_CAL_INSUFFICIENT_MM1_SPADS
  | WARNING_OFFSET_CAL_PRE_RANGE_RATE_TOO_HIGH
  deriving DecidableEq

/-- Hard failure codes: transport error, timeout, invalid handle or
parameters.  These abort a calibration call. -/
def VL53L1_Error.isHard : VL53L1_Error → Bool
  | .ERROR_CONTROL_INTERFACE => true
  | .ERROR_TIME_OUT => true
  | .ERROR_INVALID_PARAMS => true
  | _ => false

/-- Quality warning codes: degraded confidence, not hard failures. -/
def VL53L1_Error.isWarning : VL53L1_Error → Bool
  | .WARNING_REF_SPAD_CHAR_NOT_ENOUGH_SPADS => true
  | .WARNING_REF_SPAD_CHAR_RATE_TOO_HIGH => true
  | .WARNING_REF_SPAD_CHAR_RATE_TOO_LOW => true
  | .WARNING_OFFSET_CAL_INSUFFICIENT_MM1_SPADS => true
  | .WARNING_OFFSET_CAL_PRE_RANGE_RATE_TOO_HIGH => true
  | _ => false

/-- Reference detector array regions, in escalation order. -/
inductive Region where
  | nonApertured
  | apertured5x
  | apertured10x
  deriving DecidableEq

/-- Device test modes used by the calibration core. -/
inductive DeviceTestMode where
  | LCR_VCSEL_OFF
  | LCR_VCSEL_ON
  | REF_SPAD_CHAR
  | RANGING
  deriving DecidableEq

/-- Device SPAD array selector for the rate map. -/
inductive DeviceSscArray where
  | RTN
  | REF
  deriving DecidableEq

/-- Fixed-point formats for decoded SPAD rates: 1 integer / 15 fractional
bits for LCR_VCSEL_OFF, 9 integer / 7 fractional bits for LCR_VCSEL_ON. -/
inductive RateFormat where
  | fmt_1_15
  | fmt_9_7
  deriving DecidableEq

/-- Number of fractional bits of each rate format. -/
def RateFormat.fracBits : RateFormat → Nat
  | .fmt_1_15 => 15
  | .fmt_9_7 => 7

/-- A decoded per-element rate: the raw 16-bit word together with the
fixed-point format it is to be read in. -/
structure TaggedRate where
  raw : Nat
  format : RateFormat
  deriving DecidableEq

/-- Numeric value of a tagged rate in Mcps. -/
def TaggedRate.value (t : TaggedRate) : ℚ :=
  (t.raw : ℚ) / 2 ^ t.format.fracBits

/-- Persisted reference detector data: selected element count, region and
the per-element DCR SPAD enable mask. -/
structure RefSpadData where
  num_ref_spads : Nat
  ref_location : Region
  spad_enables : List Bool
  deriving DecidableEq

/-- One stage of persisted offset data: signed offset in mm tagged with
the effective SPAD count and peak signal rate used to derive it. -/
structure OffsetStage where
  offset_mm : Int
  eff_spad_count : Nat
  peak_rate : Nat
  deriving DecidableEq

/-- Observable device state: the power-force flag plus the persisted
calibration structures.  The reference SPAD selection is held both in the
in-handle customer structure and in the on-device G02 customer register
group, as documented in the header. -/
structure DeviceState where
  power_force : Bool
  customer_ref_spad : Option RefSpadData
  g02_ref_spad : Option RefSpadData
  mm1_offset : Option OffsetStage
  mm2_offset : Option OffsetStage
  deriving DecidableEq

/-- Acceptable reference rate band, lower edge: 10.0 Mcps in 16
fractional bit fixed point. -/
def lower_rate_mcps : Nat := 10 * 65536

/-- Acceptable reference rate band, upper edge: 40.0 Mcps in 16
fractional bit fixed point. -/
def upper_rate_mcps : Nat := 40 * 65536

/-- Minimum viable reference element count. -/
def min_ref_spads : Nat := 5

/-- Minimum effective MM1 SPAD count for offset calibration: 5.0 in 8.8
fixed point. -/
def min_mm1_effective_spads : Nat := 5 * 256

/-- Maximum pre-range peak rate before pileup distortion: 40.0 Mcps in 16
fractional bit fixed point. -/
def max_pre_peak_rate_mcps : Nat := 40 * 65536

/-- Outcome of the growth search within one region. -/
inductive RegionOutcome where
  | inBand (n : Nat) (rate : Nat)
  | tooHigh (n : Nat) (rate : Nat)
  | tooLow (n : Nat) (rate : Nat)
  | insufficient
  deriving DecidableEq

/-- Whether the outcome landed in the acceptable band. -/
def RegionOutcome.isInBand : RegionOutcome → Bool
  | .inBand _ _ => true
  | _ => false

/-- Whether the region had fewer than the minimum viable element count. -/
def RegionOutcome.isInsufficient : RegionOutcome → Bool
  | .insufficient => true
  | _ => false

/-- Best candidate element count carried by an outcome. -/
def RegionOutcome.bestCount : RegionOutcome → Nat
  | .inBand n _ => n
  | .tooHigh n _ => n
  | .tooLow n _ => n
  | .insufficient => 0

/-- Calibration status reported for each search outcome. -/
def RegionOutcome.toCalStatus : RegionOutcome → VL53L1_Error
  | .inBand _ _ => .ERROR_NONE
  | .tooHigh _ _ => .WARNING_REF_SPAD_CHAR_RATE_TOO_HIGH
  | .tooLow _ _ => .WARNING_REF_SPAD_CHAR_RATE_TOO_LOW
  | .insufficient => .WARNING_REF_SPAD_CHAR_NOT_ENOUGH_SPADS

/-- Scan upward from lo for the first n with p n, using explicit fuel. -/
def findFirstAux (p : Nat → Bool) (lo : Nat) : Nat → Option Nat
  | 0 => none
  | fuel + 1 => if p lo then some lo else findFirstAux p (lo + 1) fuel

/-- First n with lo ≤ n ≤ hi and p n, scanning upward (the iterative
candidate growth of the characterizer). -/
def findFirst (p : Nat → Bool) (lo hi : Nat) : Option Nat :=
  findFirstAux p lo (hi + 1 - lo)

/-- Modelled from the spec: the body of VL53L1_run_ref_spad_char is not in
the repository.  Growth search within one region (spec 4.4): the candidate
count grows until the accumulated rate reaches the band, then the rate is
classified against the 10.0 to 40.0 Mcps band; a region with fewer than 5
usable elements cannot produce a candidate. -/
def searchRegion (r : Nat → Nat) (c : Nat) : RegionOutcome :=
  if c < min_ref_spads then RegionOutcome.insufficient
  else
    (findFirst (fun n => decide (lower_rate_mcps ≤ r n)) min_ref_spads c).elim
      (RegionOutcome.tooLow c (r c))
      (fun n =>
        if r n ≤ upper_rate_mcps then RegionOutcome.inBand n (r n)
        else RegionOutcome.tooHigh n (r n))

/-- The fixed deterministic escalation order of the search. -/
def regionOrder : List Region :=
  [Region.nonApertured, Region.apertured5x, Region.apertured10x]

/-- Result of the full region escalation search: regions tried in order,
the selected region and its outcome. -/
structure CharSearchResult where
  tried : List Region
  selectedRegion : Region
  outcome : RegionOutcome
  deriving DecidableEq

/-- Modelled from the spec: the body of VL53L1_run_ref_spad_char is not in
the repository.  Region escalation (spec 4.4): regions are tried in the
fixed order non-apertured, 5x-apertured, 10x-apertured; the search stops at
the first region landing in the band, otherwise the last region able to
produce a candidate determines the outcome, and the insufficient-elements
classification is reported only when every region has fewer than the
minimum viable element count. -/
def searchAll (u : Region → Nat) (r : Region → Nat → Nat) : CharSearchResult :=
  if (searchRegion (r Region.nonApertured) (u Region.nonApertured)).isInBand then
    ⟨[Region.nonApertured], Region.nonApertured,
      searchRegion (r Region.nonApertured) (u Region.nonApertured)⟩
  else if (searchRegion (r Region.apertured5x) (u Region.apertured5x)).isInBand then
    ⟨[Region.nonApertured, Region.apertured5x], Region.apertured5x,
      searchRegion (r Region.apertured5x) (u Region.apertured5x)⟩
  else if (searchRegion (r Region.apertured10x) (u Region.apertured10x)).isInsufficient then
    if (searchRegion (r Region.apertured5x) (u Region.apertured5x)).isInsufficient then
      if (searchRegion (r Region.nonApertured) (u Region.nonApertured)).isInsufficient then
        ⟨regionOrder, Region.apertured10x, RegionOutcome.insufficient⟩
      else
        ⟨regionOrder, Region.nonApertured,
          searchRegion (r Region.nonApertured) (u Region.nonApertured)⟩
    else
      ⟨regionOrder, Region.apertured5x,
        searchRegion (r Region.apertured5x) (u Region.apertured5x)⟩
  else
    ⟨regionOrder, Region.apertured10x,
      searchRegion (r Region.apertured10x) (u Region.apertured10x)⟩

/-- Data persisted by the characterizer for a search result: the best
candidate count (never below 1), the selected region and an enable mask
with exactly that many elements enabled. -/
def refSpadResultData (u : Region → Nat) (res : CharSearchResult) : RefSpadData :=
  { num_ref_spads := max 1 res.outcome.bestCount
    ref_location := res.selectedRegion
    spad_enables :=
      List.replicate (max 1 res.outcome.bestCount) true ++
      List.replicate (u res.selectedRegion - max 1 res.outcome.bestCount) false }

/-- Synthetic transport behaviour driving one reference characterisation
run: usable element count per region, accumulated rate per region and
candidate count, and an optional injected hard transport error. -/
structure RefSpadCharEnv where
  usable : Region → Nat
  rate : Region → Nat → Nat
  fail : Option VL53L1_Error

/-- Transport behaviour for one offset calibration run: the MM1 and MM2
stage acquisitions, each a measurement or a hard error. -/
structure StageMeas where
  distance_mm : Int
  eff_spad_count : Nat
  peak_rate : Nat
  deriving DecidableEq

/-- Stage acquisition results injected into an offset calibration run. -/
structure OffsetCalEnv where
  stage1 : Except VL53L1_Error StageMeas
  stage2 : Except VL53L1_Error StageMeas

/-- Modelled from the spec: the body of VL53L1_run_device_test is not in
the repository.  Spec 4.2: enable power force, configure and start the
test, poll for completion and read back the raw result block; a timeout or
transport error propagates as a hard error.  Power force is left engaged
for the owning operation to release. -/
def VL53L1_run_device_test (dev : DeviceState) (device_test_mode : DeviceTestMode)
    (transport : Except VL53L1_Error (List Nat)) :
    VL53L1_Error × DeviceState × Option (List Nat) :=
  let devOn := { dev with power_force := true }
  match transport with
  | .error e => (e, devOn, none)
  | .ok raw => (VL53L1_Error.ERROR_NONE, devOn, some raw)

/-- Rate format selected by the device test mode, if the mode is valid for
the rate map. -/
def formatFor : DeviceTestMode → Option RateFormat
  | .LCR_VCSEL_OFF => some RateFormat.fmt_1_15
  | .LCR_VCSEL_ON => some RateFormat.fmt_9_7
  | _ => none

/-- Modelled from the spec: the body of VL53L1_run_spad_rate_map is not in
the repository.  Spec 4.3: delegate to the device test runner, then decode
the raw block into one tagged rate per element in element order, in the
1.15 format for LCR_VCSEL_OFF and the 9.7 format for LCR_VCSEL_ON; power
force is released on every exit path. -/
def VL53L1_run_spad_rate_map (dev : DeviceState) (device_test_mode : DeviceTestMode)
    (array_select : DeviceSscArray) (ssc_config_timeout_us : Nat)
    (transport : Except VL53L1_Error (List Nat)) :
    VL53L1_Error × DeviceState × List TaggedRate :=
  match formatFor device_test_mode with
  | none => (VL53L1_Error.ERROR_INVALID_PARAMS, { dev with power_force := false }, [])
  | some fmt =>
      match VL53L1_run_device_test dev device_test_mode transport with
      | (st, dev1, none) => (st, { dev1 with power_force := false }, [])
      | (st, dev1, some raw) =>
          (st, { dev1 with power_force := false },
           raw.map (fun w => ({ raw := w % 65536, format := fmt } : TaggedRate)))

/-- Modelled from the spec: the body of VL53L1_run_ref_spad_char is not in
the repository.  Spec 4.4: power force is enabled to read the patch RAM;
a hard transport error aborts without writing; otherwise the escalation
search runs and the best candidate is persisted to both the in-handle
customer structure and the G02 customer register group, the calibration
status carrying the classification; power force is released on every exit
path.  Returns (result code, unfiltered calibration status, state). -/
def VL53L1_run_ref_spad_char (dev : DeviceState) (env : RefSpadCharEnv) :
    VL53L1_Error × VL53L1_Error × DeviceState :=
  let devOn := { dev with power_force := true }
  match env.fail with
  | some e => (e, e, { devOn with power_force := false })
  | none =>
      let res := searchAll env.usable env.rate
      let data := refSpadResultData env.usable res
      (VL53L1_Error.ERROR_NONE, res.outcome.toCalStatus,
       { devOn with
         customer_ref_spad := some data
         g02_ref_spad := some data
         power_force := false })

/-- Modelled from the spec: the body of VL53L1_run_offset_calibration is
not in the repository.  Spec 4.5: run the MM1 then the MM2 ranging preset;
a hard error at either stage aborts without writing anything; otherwise
both stage offsets (ground truth minus measured distance) are written
together, the calibration status reporting insufficient MM1 SPADs or a
too-high pre-range rate; power force is released on every exit path.
Returns (result code, unfiltered calibration status, state). -/
def VL53L1_run_offset_calibration (dev : DeviceState) (cal_distance_mm : Int)
    (env : OffsetCalEnv) : VL53L1_Error × VL53L1_Error × DeviceState :=
  let devOn := { dev with power_force := true }
  match env.stage1 with
  | .error e => (e, e, { devOn with power_force := false })
  | .ok m1 =>
      let s1 : OffsetStage :=
        { offset_mm := cal_distance_mm - m1.distance_mm
          eff_spad_count := m1.eff_spad_count
          peak_rate := m1.peak_rate }
      match env.stage2 with
      | .error e => (e, e, { devOn with power_force := false })
      | .ok m2 =>
          let s2 : OffsetStage :=
            { offset_mm := cal_distance_mm - m2.distance_mm
              eff_spad_count := m2.eff_spad_count
              peak_rate := m2.peak_rate }
          let cal_status :=
            if m1.eff_spad_count < min_mm1_effective_spads then
              VL53L1_Error.WARNING_OFFSET_CAL_INSUFFICIENT_MM1_SPADS
            else if max_pre_peak_rate_mcps < m1.peak_rate then
              VL53L1_Error.WARNING_OFFSET_CAL_PRE_RANGE_RATE_TOO_HIGH
            else VL53L1_Error.ERROR_NONE
          (VL53L1_Error.ERROR_NONE, cal_status,
           { devOn with
             mm1_offset := some s1
             mm2_offset := some s2
             power_force := false })

/-- Invariant of persisted reference detector data: the element count is
the number of set bits in the enable mask. -/
def refSpadInvariant : Option RefSpadData → Prop
  | none => True
  | some d => d.num_ref_spads = d.spad_enables.count true

theorem findFirstAux_eq_none_iff (p : Nat → Bool) :
    ∀ fuel lo, findFirstAux p lo fuel = none ↔
      ∀ n, lo ≤ n → n < lo + fuel → p n = false := by
  intro fuel
  induction fuel with
  | zero =>
      intro lo
      simp only [findFirstAux]
      constructor
      · intro _ n h1 h2
        omega
      · intro _
        trivial
  | succ fuel ih =>
      intro lo
      simp only [findFirstAux]
      by_cases hp : p lo
      · simp only [hp, if_true]
        constructor
        · intro h
          exact absurd h (by simp)
        · intro h
          have := h lo (Nat.le_refl lo) (by omega)
          rw [hp] at this
          exact absurd this (by simp)
      · rw [if_neg hp]
        rw [ih (lo + 1)]
        constructor
        · intro h n h1 h2
          rcases Nat.eq_or_lt_of_le h1 with h3 | h3
          · rw [← h3]
            exact Bool.of_not_eq_true hp
          · exact h n h3 (by omega)
        · intro h n h1 h2
          exact h n (by omega) (by omega)

theorem findFirstAux_eq_some_iff (p : Nat → Bool) :
    ∀ fuel lo n, findFirstAux p lo fuel = some n ↔
      lo ≤ n ∧ n < lo + fuel ∧ p n = true ∧
      ∀ m, lo ≤ m → m < n → p m = false := by
  intro fuel
  induction fuel with
  | zero =>
      intro lo n
      simp only [findFirstAux]
      constructor
      · intro h
        exact absurd h (by simp)
      · intro ⟨h1, h2, _⟩
        omega
  | succ fuel ih =>
      intro lo n
      simp only [findFirstAux]
      by_cases hp : p lo
      · simp only [hp, if_true]
        constructor
        · intro h
          have hn : n = lo := by
            have := Option.some.inj h
            omega
          subst hn
          exact ⟨Nat.le_refl n, by omega, hp, fun m h1 h2 => by omega⟩
        · intro ⟨h1, h2, h3, h4⟩
          have hn : n = lo := by
            by_contra hne
            have := h4 lo (Nat.le_refl lo) (by omega)
            rw [hp] at this
            exact absurd this (by simp)
          rw [hn]
      · rw [if_neg hp]
        rw [ih (lo + 1) n]
        constructor
        · intro ⟨h1, h2, h3, h4⟩
          refine ⟨by omega, by omega, h3, ?_⟩
          intro m hm1 hm2
          rcases Nat.eq_or_lt_of_le hm1 with h5 | h5
          · rw [← h5]
            exact Bool.of_not_eq_true hp
          · exact h4 m h5 hm2
        · intro ⟨h1, h2, h3, h4⟩
          have hne : n ≠ lo := by
            intro he
            rw [he] at h3
            exact hp h3
          exact ⟨by omega, by omega, h3, fun m hm1 hm2 => h4 m (by omega) hm2⟩

theorem findFirst_eq_none_iff (p : Nat → Bool) (lo hi : Nat) :
    findFirst p lo hi = none ↔ ∀ n, lo ≤ n → n ≤ hi → p n = false := by
  unfold findFirst
  rw [findFirstAux_eq_none_iff]
  constructor
  · intro h n h1 h2
    exact h n h1 (by omega)
  · intro h n h1 h2
    exact h n h1 (by omega)

theorem findFirst_eq_some_iff (p : Nat → Bool) (lo hi n : Nat) :
    findFirst p lo hi = some n ↔
      lo ≤ n ∧ n ≤ hi ∧ p n = true ∧ ∀ m, lo ≤ m → m < n → p m = false := by
  unfold findFirst
  rw [findFirstAux_eq_some_iff]
  constructor
  · intro ⟨h1, h2, h3, h4⟩
    exact ⟨h1, by omega, h3, h4⟩
  · intro ⟨h1, h2, h3, h4⟩
    exact ⟨h1, by omega, h3, h4⟩

theorem lower_le_upper : lower_rate_mcps ≤ upper_rate_mcps := by decide


theorem searchRegion_eq_insufficient_iff (r : Nat → Nat) (c : Nat) :
    searchRegion r c = RegionOutcome.insufficient ↔ c < min_ref_spads := by
  unfold searchRegion
  by_cases hc : c < min_ref_spads
  · rw [if_pos hc]
    simp [hc]
  · rw [if_neg hc]
    constructor
    · intro h
      exfalso
      rcases hf : findFirst (fun n => decide (lower_rate_mcps ≤ r n)) min_ref_spads c with
        _ | k
      · rw [hf] at h
        simp at h
      · rw [hf] at h
        by_cases hb : r k ≤ upper_rate_mcps
        · simp [hb] at h
        · simp [hb] at h
    · intro h
      exact absurd h hc

theorem searchRegion_eq_tooLow_iff (r : Nat → Nat) (c n rt : Nat) :
    searchRegion r c = RegionOutcome.tooLow n rt ↔
      min_ref_spads ≤ c ∧ n = c ∧ rt = r c ∧
      ∀ m, min_ref_spads ≤ m → m ≤ c → r m < lower_rate_mcps := by
  unfold searchRegion
  by_cases hc : c < min_ref_spads
  · rw [if_pos hc]
    constructor
    · intro h
      simp at h
    · intro ⟨h1, _⟩
      omega
  · rw [if_neg hc]
    rcases hf : findFirst (fun m => decide (lower_rate_mcps ≤ r m)) min_ref_spads c with
      _ | k
    · rw [findFirst_eq_none_iff] at hf
      simp only [Option.elim_none]
      constructor
      · intro h
        obtain ⟨he1, he2⟩ := (RegionOutcome.tooLow.injEq _ _ _ _).mp h
        refine ⟨by omega, he1.symm, he2.symm, ?_⟩
        intro m hm1 hm2
        have := hf m hm1 hm2
        simpa using this
      · intro ⟨_, h2, h3, _⟩
        rw [h2, h3]
    · rw [findFirst_eq_some_iff] at hf
      obtain ⟨hk1, hk2, hk3, hk4⟩ := hf
      have hk5 : lower_rate_mcps ≤ r k := by simpa using hk3
      simp only [Option.elim_some]
      constructor
      · intro h
        by_cases hb : r k ≤ upper_rate_mcps
        · rw [if_pos hb] at h
          simp at h
        · rw [if_neg hb] at h
          simp at h
      · intro ⟨_, _, _, h4⟩
        have := h4 k hk1 hk2
        omega

theorem searchRegion_eq_inBand_iff (r : Nat → Nat) (c n rt : Nat) :
    searchRegion r c = RegionOutcome.inBand n rt ↔
      min_ref_spads ≤ n ∧ n ≤ c ∧ rt = r n ∧
      lower_rate_mcps ≤ r n ∧ r n ≤ upper_rate_mcps ∧
      ∀ m, min_ref_spads ≤ m → m < n → r m < lower_rate_mcps := by
  unfold searchRegion
  by_cases hc : c < min_ref_spads
  · rw [if_pos hc]
    constructor
    · intro h
      simp at h
    · intro ⟨h1, h2, _⟩
      omega
  · rw [if_neg hc]
    rcases hf : findFirst (fun m => decide (lower_rate_mcps ≤ r m)) min_ref_spads c with
      _ | k
    · rw [findFirst_eq_none_iff] at hf
      simp only [Option.elim_none]
      constructor
      · intro h
        simp at h
      · intro ⟨h1, h2, _, h4, _⟩
        have := hf n h1 h2
        simp at this
        omega
    · rw [findFirst_eq_some_iff] at hf
      obtain ⟨hk1, hk2, hk3, hk4⟩ := hf
      have hk5 : lower_rate_mcps ≤ r k := by simpa using hk3
      simp only [Option.elim_some]
      by_cases hb : r k ≤ upper_rate_mcps
      · rw [if_pos hb]
        constructor
        · intro h
          obtain ⟨he1, he2⟩ := (RegionOutcome.inBand.injEq _ _ _ _).mp h
          subst he1
          refine ⟨hk1, hk2, he2.symm, hk5, hb, ?_⟩
          intro m hm1 hm2
          have := hk4 m hm1 hm2
          simpa using this
        · intro ⟨h1, h2, h3, h4, h5, h6⟩
          have hnk : k = n := by
            by_cases hlt : n < k
            · have := hk4 n h1 hlt
              simp at this
              omega
            · by_cases hgt : k < n
              · have := h6 k hk1 hgt
                omega
              · omega
          subst hnk
          rw [h3]
      · rw [if_neg hb]
        constructor
        · intro h
          simp at h
        · intro ⟨h1, h2, h3, h4, h5, h6⟩
          have hnk : k = n := by
            by_cases hlt : n < k
            · have := hk4 n h1 hlt
              simp at this
              omega
            · by_cases hgt : k < n
              · have := h6 k hk1 hgt
                omega
              · omega
          subst hnk
          omega

theorem searchRegion_eq_tooHigh_iff (r : Nat → Nat) (c n rt : Nat) :
    searchRegion r c = RegionOutcome.tooHigh n rt ↔
      min_ref_spads ≤ n ∧ n ≤ c ∧ rt = r n ∧
      upper_rate_mcps < r n ∧
      ∀ m, min_ref_spads ≤ m → m < n → r m < lower_rate_mcps := by
  unfold searchRegion
  by_cases hc : c < min_ref_spads
  · rw [if_pos hc]
    constructor
    · intro h
      simp at h
    · intro ⟨h1, h2, _⟩
      omega
  · rw [if_neg hc]
    rcases hf : findFirst (fun m => decide (lower_rate_mcps ≤ r m)) min_ref_spads c with
      _ | k
    · rw [findFirst_eq_none_iff] at hf
      simp only [Option.elim_none]
      constructor
      · intro h
        simp at h
      · intro ⟨h1, h2, _, h4, _⟩
        have := hf n h1 h2
        simp at this
        have := lower_le_upper
        omega
    · rw [findFirst_eq_some_iff] at hf
      obtain ⟨hk1, hk2, hk3, hk4⟩ := hf
      have hk5 : lower_rate_mcps ≤ r k := by simpa using hk3
      simp only [Option.elim_some]
      by_cases hb : r k ≤ upper_rate_mcps
      · rw [if_pos hb]
        constructor
        · intro h
          simp at h
        · intro ⟨h1, h2, h3, h4, h6⟩
          have hnk : k = n := by
            by_cases hlt : n < k
            · have := hk4 n h1 hlt
              simp at this
              have := lower_le_upper
              omega
            · by_cases hgt : k < n
              · have := h6 k hk1 hgt
                omega
              · omega
          subst hnk
          omega
      · rw [if_neg hb]
        constructor
        · intro h
          obtain ⟨he1, he2⟩ := (RegionOutcome.tooHigh.injEq _ _ _ _).mp h
          subst he1
          refine ⟨hk1, hk2, he2.symm, by omega, ?_⟩
          intro m hm1 hm2
          have := hk4 m hm1 hm2
          simpa using this
        · intro ⟨h1, h2, h3, h4, h6⟩
          have hnk : k = n := by
            by_cases hlt : n < k
            · have := hk4 n h1 hlt
              simp at this
              have := lower_le_upper
              omega
            · by_cases hgt : k < n
              · have := h6 k hk1 hgt
                omega
              · omega
          subst hnk
          rw [h3]

theorem RegionOutcome.isInBand_iff (o : RegionOutcome) :
    o.isInBand = true ↔ ∃ n rt, o = RegionOutcome.inBand n rt := by
  cases o <;> simp [RegionOutcome.isInBand]

theorem RegionOutcome.isInsufficient_iff (o : RegionOutcome) :
    o.isInsufficient = true ↔ o = RegionOutcome.insufficient := by
  cases o <;> simp [RegionOutcome.isInsufficient]

theorem RegionOutcome.toCalStatus_eq_none_iff (o : RegionOutcome) :
    o.toCalStatus = VL53L1_Error.ERROR_NONE ↔ ∃ n rt, o = RegionOutcome.inBand n rt := by
  cases o <;> simp [RegionOutcome.toCalStatus]

theorem RegionOutcome.toCalStatus_eq_tooHigh_iff (o : RegionOutcome) :
    o.toCalStatus = VL53L1_Error.WARNING_REF_SPAD_CHAR_RATE_TOO_HIGH ↔
      ∃ n rt, o = RegionOutcome.tooHigh n rt := by
  cases o <;> simp [RegionOutcome.toCalStatus]

theorem RegionOutcome.toCalStatus_eq_tooLow_iff (o : RegionOutcome) :
    o.toCalStatus = VL53L1_Error.WARNING_REF_SPAD_CHAR_RATE_TOO_LOW ↔
      ∃ n rt, o = RegionOutcome.tooLow n rt := by
  cases o <;> simp [RegionOutcome.toCalStatus]

theorem RegionOutcome.toCalStatus_eq_insufficient_iff (o : RegionOutcome) :
    o.toCalStatus = VL53L1_Error.WARNING_REF_SPAD_CHAR_NOT_ENOUGH_SPADS ↔
      o = RegionOutcome.insufficient := by
  cases o <;> simp [RegionOutcome.toCalStatus]

theorem searchAll_outcome_coherent (u : Region → Nat) (r : Region → Nat → Nat) :
    (searchAll u r).outcome =
      searchRegion (r (searchAll u r).selectedRegion)
        (u (searchAll u r).selectedRegion) := by
  unfold searchAll
  by_cases h1 : (searchRegion (r Region.nonApertured) (u Region.nonApertured)).isInBand
  · rw [if_pos h1]
  · rw [if_neg h1]
    by_cases h2 : (searchRegion (r Region.apertured5x) (u Region.apertured5x)).isInBand
    · rw [if_pos h2]
    · rw [if_neg h2]
      by_cases h3 :
          (searchRegion (r Region.apertured10x) (u Region.apertured10x)).isInsufficient
      · rw [if_pos h3]
        by_cases h2i :
            (searchRegion (r Region.apertured5x) (u Region.apertured5x)).isInsufficient
        · rw [if_pos h2i]
          by_cases h1i :
              (searchRegion (r Region.nonApertured) (u Region.nonApertured)).isInsufficient
          · rw [if_pos h1i]
            exact ((RegionOutcome.isInsufficient_iff _).mp h3).symm
          · rw [if_neg h1i]
        · rw [if_neg h2i]
      · rw [if_neg h3]

theorem searchAll_outcome_insufficient_iff (u : Region → Nat) (r : Region → Nat → Nat) :
    (searchAll u r).outcome = RegionOutcome.insufficient ↔
      ∀ rg, u rg < min_ref_spads := by
  unfold searchAll
  by_cases h1 : (searchRegion (r Region.nonApertured) (u Region.nonApertured)).isInBand
  · rw [if_pos h1]
    constructor
    · intro h
      rw [RegionOutcome.isInBand_iff] at h1
      obtain ⟨n, rt, h1⟩ := h1
      rw [h1] at h
      exact absurd h (by simp)
    · intro h
      rw [RegionOutcome.isInBand_iff] at h1
      obtain ⟨n, rt, h1⟩ := h1
      rw [searchRegion_eq_inBand_iff] at h1
      have := h Region.nonApertured
      omega
  · rw [if_neg h1]
    by_cases h2 : (searchRegion (r Region.apertured5x) (u Region.apertured5x)).isInBand
    · rw [if_pos h2]
      constructor
      · intro h
        rw [RegionOutcome.isInBand_iff] at h2
        obtain ⟨n, rt, h2⟩ := h2
        rw [h2] at h
        exact absurd h (by simp)
      · intro h
        rw [RegionOutcome.isInBand_iff] at h2
        obtain ⟨n, rt, h2⟩ := h2
        rw [searchRegion_eq_inBand_iff] at h2
        have := h Region.apertured5x
        omega
    · rw [if_neg h2]
      by_cases h3 :
          (searchRegion (r Region.apertured10x) (u Region.apertured10x)).isInsufficient
      · rw [if_pos h3]
        by_cases h2i :
            (searchRegion (r Region.apertured5x) (u Region.apertured5x)).isInsufficient
        · rw [if_pos h2i]
          by_cases h1i :
              (searchRegion (r Region.nonApertured) (u Region.nonApertured)).isInsufficient
          · rw [if_pos h1i]
            constructor
            · intro _
              intro rg
              rw [RegionOutcome.isInsufficient_iff, searchRegion_eq_insufficient_iff] at h1i
              rw [RegionOutcome.isInsufficient_iff, searchRegion_eq_insufficient_iff] at h2i
              rw [RegionOutcome.isInsufficient_iff, searchRegion_eq_insufficient_iff] at h3
              cases rg
              · exact h1i
              · exact h2i
              · exact h3
            · intro _
              rfl
          · rw [if_neg h1i]
            constructor
            · intro h
              rw [RegionOutcome.isInsufficient_iff] at h1i
              exact absurd h h1i
            · intro h
              rw [RegionOutcome.isInsufficient_iff, searchRegion_eq_insufficient_iff]
                at h1i
              exact absurd (h Region.nonApertured) h1i
        · rw [if_neg h2i]
          constructor
          · intro h
            rw [RegionOutcome.isInsufficient_iff] at h2i
            exact absurd h h2i
          · intro h
            rw [RegionOutcome.isInsufficient_iff, searchRegion_eq_insufficient_iff] at h2i
            exact absurd (h Region.apertured5x) h2i
      · rw [if_neg h3]
        constructor
        · intro h
          rw [RegionOutcome.isInsufficient_iff] at h3
          exact absurd h h3
        · intro h
          rw [RegionOutcome.isInsufficient_iff, searchRegion_eq_insufficient_iff] at h3
          exact absurd (h Region.apertured10x) h3

theorem searchAll_tried_deterministic (u : Region → Nat) (r : Region → Nat → Nat) :
    ∃ k, 1 ≤ k ∧ k ≤ 3 ∧ (searchAll u r).tried = regionOrder.take k := by
  unfold searchAll
  by_cases h1 : (searchRegion (r Region.nonApertured) (u Region.nonApertured)).isInBand
  · rw [if_pos h1]
    exact ⟨1, by omega, by omega, rfl⟩
  · rw [if_neg h1]
    by_cases h2 : (searchRegion (r Region.apertured5x) (u Region.apertured5x)).isInBand
    · rw [if_pos h2]
      exact ⟨2, by omega, by omega, rfl⟩
    · rw [if_neg h2]
      by_cases h3 :
          (searchRegion (r Region.apertured10x) (u Region.apertured10x)).isInsufficient
      · rw [if_pos h3]
        by_cases h2i :
            (searchRegion (r Region.apertured5x) (u Region.apertured5x)).isInsufficient
        · rw [if_pos h2i]
          by_cases h1i :
              (searchRegion (r Region.nonApertured) (u Region.nonApertured)).isInsufficient
          · rw [if_pos h1i]
            exact ⟨3, by omega, by omega, rfl⟩
          · rw [if_neg h1i]
            exact ⟨3, by omega, by omega, rfl⟩
        · rw [if_neg h2i]
          exact ⟨3, by omega, by omega, rfl⟩
      · rw [if_neg h3]
        exact ⟨3, by omega, by omega, rfl⟩

theorem run_ref_spad_char_ok (dev : DeviceState) (u : Region → Nat)
    (r : Region → Nat → Nat) :
    VL53L1_run_ref_spad_char dev ⟨u, r, none⟩ =
      (VL53L1_Error.ERROR_NONE, (searchAll u r).outcome.toCalStatus,
       { dev with
         customer_ref_spad := some (refSpadResultData u (searchAll u r))
         g02_ref_spad := some (refSpadResultData u (searchAll u r))
         power_force := false }) := rfl

theorem run_ref_spad_char_fail (dev : DeviceState) (u : Region → Nat)
    (r : Region → Nat → Nat) (e : VL53L1_Error) :
    VL53L1_run_ref_spad_char dev ⟨u, r, some e⟩ =
      (e, e, { dev with power_force := false }) := rfl

theorem run_offset_calibration_fail1 (dev : DeviceState) (d : Int)
    (e : VL53L1_Error) (s2 : Except VL53L1_Error StageMeas) :
    VL53L1_run_offset_calibration dev d ⟨Except.error e, s2⟩ =
      (e, e, { dev with power_force := false }) := rfl

theorem run_offset_calibration_fail2 (dev : DeviceState) (d : Int)
    (m1 : StageMeas) (e : VL53L1_Error) :
    VL53L1_run_offset_calibration dev d ⟨Except.ok m1, Except.error e⟩ =
      (e, e, { dev with power_force := false }) := rfl

theorem run_offset_calibration_ok (dev : DeviceState) (d : Int)
    (m1 m2 : StageMeas) :
    VL53L1_run_offset_calibration dev d ⟨Except.ok m1, Except.ok m2⟩ =
      (VL53L1_Error.ERROR_NONE,
       (if m1.eff_spad_count < min_mm1_effective_spads then
          VL53L1_Error.WARNING_OFFSET_CAL_INSUFFICIENT_MM1_SPADS
        else if max_pre_peak_rate_mcps < m1.peak_rate then
          VL53L1_Error.WARNING_OFFSET_CAL_PRE_RANGE_RATE_TOO_HIGH
        else VL53L1_Error.ERROR_NONE),
       { dev with
         mm1_offset := some ⟨d - m1.distance_mm, m1.eff_spad_count, m1.peak_rate⟩
         mm2_offset := some ⟨d - m2.distance_mm, m2.eff_spad_count, m2.peak_rate⟩
         power_force := false }) := rfl

theorem run_spad_rate_map_off_ok (dev : DeviceState) (a : DeviceSscArray)
    (t : Nat) (raw : List Nat) :
    VL53L1_run_spad_rate_map dev DeviceTestMode.LCR_VCSEL_OFF a t (Except.ok raw) =
      (VL53L1_Error.ERROR_NONE, { dev with power_force := false },
       raw.map fun w => ({ raw := w % 65536, format := RateFormat.fmt_1_15 } : TaggedRate)) :=
  rfl

theorem run_spad_rate_map_on_ok (dev : DeviceState) (a : DeviceSscArray)
    (t : Nat) (raw : List Nat) :
    VL53L1_run_spad_rate_map dev DeviceTestMode.LCR_VCSEL_ON a t (Except.ok raw) =
      (VL53L1_Error.ERROR_NONE, { dev with power_force := false },
       raw.map fun w => ({ raw := w % 65536, format := RateFormat.fmt_9_7 } : TaggedRate)) :=
  rfl

theorem count_true_enable_mask (n m : Nat) :
    (List.replicate n true ++ List.replicate m false).count true = n := by
  simp [List.count_append, List.count_replicate]

theorem refSpadInvariant_some (d : RefSpadData) :
    refSpadInvariant (some d) ↔ d.num_ref_spads = d.spad_enables.count true :=
  Iff.rfl

theorem refSpadResultData_invariant (u : Region → Nat) (res : CharSearchResult) :
    refSpadInvariant (some (refSpadResultData u res)) := by
  rw [refSpadInvariant_some]
  unfold refSpadResultData
  rw [count_true_enable_mask]

/-- A fresh device handle with nothing persisted and power force off. -/
def dev0 : DeviceState :=
  { power_force := false
    customer_ref_spad := none
    g02_ref_spad := none
    mm1_offset := none
    mm2_offset := none }

/-- Claim C1: the MM1 and MM2 offsets are written into the persisted
offset data together as one atomic outcome; if a failure occurs after
stage 1 is computed but before stage 2 completes, the persisted offset
data afterwards equals its value from before the call, and a state with
only one stage updated is never observable. -/
theorem claim_C1_offset_write_atomic (dev : DeviceState) (d : Int)
    (env : OffsetCalEnv) :
    (∀ e, env.stage2 = Except.error e →
        (VL53L1_run_offset_calibration dev d env).2.2.mm1_offset = dev.mm1_offset ∧
        (VL53L1_run_offset_calibration dev d env).2.2.mm2_offset = dev.mm2_offset) ∧
    (((VL53L1_run_offset_calibration dev d env).2.2.mm1_offset = dev.mm1_offset ∧
      (VL53L1_run_offset_calibration dev d env).2.2.mm2_offset = dev.mm2_offset) ∨
     (∃ s1 s2,
        (VL53L1_run_offset_calibration dev d env).2.2.mm1_offset = some s1 ∧
        (VL53L1_run_offset_calibration dev d env).2.2.mm2_offset = some s2 ∧
        (VL53L1_run_offset_calibration dev d env).1 = VL53L1_Error.ERROR_NONE)) := by
  obtain ⟨st1, st2⟩ := env
  cases st1 with
  | error e1 =>
      constructor
      · intro e _
        exact ⟨rfl, rfl⟩
      · exact Or.inl ⟨rfl, rfl⟩
  | ok m1 =>
      cases st2 with
      | error e2 =>
          constructor
          · intro e _
            exact ⟨rfl, rfl⟩
          · exact Or.inl ⟨rfl, rfl⟩
      | ok m2 =>
          constructor
          · intro e h
            exact absurd h (by simp)
          · exact Or.inr ⟨_, _, rfl, rfl, rfl⟩

/-- Witness for claim C1 at a concrete input: stage 1 measured, stage 2
fails with a timeout, and the persisted offsets are untouched. -/
theorem claim_C1_offset_write_atomic_witness :
    (VL53L1_run_offset_calibration dev0 140
        ⟨Except.ok ⟨135, 2000, 1000⟩,
         Except.error VL53L1_Error.ERROR_TIME_OUT⟩).2.2.mm1_offset = dev0.mm1_offset ∧
    (VL53L1_run_offset_calibration dev0 140
        ⟨Except.ok ⟨135, 2000, 1000⟩,
         Except.error VL53L1_Error.ERROR_TIME_OUT⟩).2.2.mm2_offset = dev0.mm2_offset :=
  (claim_C1_offset_write_atomic dev0 140
      ⟨Except.ok ⟨135, 2000, 1000⟩, Except.error VL53L1_Error.ERROR_TIME_OUT⟩).1
    VL53L1_Error.ERROR_TIME_OUT rfl

/-- Claim C6: the detector test runner enables power force before reading
RAM-backed results, and every owning calibration operation disables power
force on every exit path, including error and timeout paths. -/
theorem claim_C6_power_force_discipline (dev : DeviceState) (mode : DeviceTestMode)
    (transport : Except VL53L1_Error (List Nat)) (env : RefSpadCharEnv)
    (a : DeviceSscArray) (t : Nat) (d : Int) (oenv : OffsetCalEnv) :
    (VL53L1_run_device_test dev mode transport).2.1.power_force = true ∧
    (VL53L1_run_ref_spad_char dev env).2.2.power_force = false ∧
    (VL53L1_run_spad_rate_map dev mode a t transport).2.1.power_force = false ∧
    (VL53L1_run_offset_calibration dev d oenv).2.2.power_force = false := by
  refine ⟨?_, ?_, ?_, ?_⟩
  · cases transport <;> rfl
  · obtain ⟨u, r, f⟩ := env
    cases f <;> rfl
  · cases mode <;> cases transport <;> rfl
  · obtain ⟨st1, st2⟩ := oenv
    cases st1 with
    | error e => rfl
    | ok m1 => cases st2 <;> rfl

/-- Claim C7: a hard failure aborts the calibration call immediately,
leaves all persisted calibration structures exactly as they were, and
propagates to the caller as a non-success result code. -/
theorem claim_C7_hard_failure_aborts (dev : DeviceState) (u : Region → Nat)
    (r : Region → Nat → Nat) (d : Int) (m1 : StageMeas)
    (st2 : Except VL53L1_Error StageMeas) (mode : DeviceTestMode)
    (a : DeviceSscArray) (t : Nat) (e : VL53L1_Error) :
    ((VL53L1_run_ref_spad_char dev ⟨u, r, some e⟩).1 = e ∧
     (VL53L1_run_ref_spad_char dev ⟨u, r, some e⟩).2.2.customer_ref_spad =
       dev.customer_ref_spad ∧
     (VL53L1_run_ref_spad_char dev ⟨u, r, some e⟩).2.2.g02_ref_spad =
       dev.g02_ref_spad ∧
     (VL53L1_run_ref_spad_char dev ⟨u, r, some e⟩).2.2.mm1_offset = dev.mm1_offset ∧
     (VL53L1_run_ref_spad_char dev ⟨u, r, some e⟩).2.2.mm2_offset = dev.mm2_offset) ∧
    ((VL53L1_run_offset_calibration dev d ⟨Except.error e, st2⟩).1 = e ∧
     (VL53L1_run_offset_calibration dev d ⟨Except.error e, st2⟩).2.2.customer_ref_spad =
       dev.customer_ref_spad ∧
     (VL53L1_run_offset_calibration dev d ⟨Except.error e, st2⟩).2.2.g02_ref_spad =
       dev.g02_ref_spad ∧
     (VL53L1_run_offset_calibration dev d ⟨Except.error e, st2⟩).2.2.mm1_offset =
       dev.mm1_offset ∧
     (VL53L1_run_offset_calibration dev d ⟨Except.error e, st2⟩).2.2.mm2_offset =
       dev.mm2_offset) ∧
    ((VL53L1_run_offset_calibration dev d ⟨Except.ok m1, Except.error e⟩).1 = e ∧
     (VL53L1_run_offset_calibration dev d
        ⟨Except.ok m1, Except.error e⟩).2.2.mm1_offset = dev.mm1_offset ∧
     (VL53L1_run_offset_calibration dev d
        ⟨Except.ok m1, Except.error e⟩).2.2.mm2_offset = dev.mm2_offset) ∧
    ((∀ fmt, formatFor mode = some fmt →
        (VL53L1_run_spad_rate_map dev mode a t (Except.error e)).1 = e) ∧
     (VL53L1_run_spad_rate_map dev mode a t (Except.error e)).2.1.customer_ref_spad =
       dev.customer_ref_spad ∧
     (VL53L1_run_spad_rate_map dev mode a t (Except.error e)).2.1.g02_ref_spad =
       dev.g02_ref_spad ∧
     (VL53L1_run_spad_rate_map dev mode a t (Except.error e)).2.1.mm1_offset =
       dev.mm1_offset ∧
     (VL53L1_run_spad_rate_map dev mode a t (Except.error e)).2.1.mm2_offset =
       dev.mm2_offset) ∧
    ((VL53L1_run_device_test dev mode (Except.error e)).1 = e) ∧
    (e.isHard = true → e ≠ VL53L1_Error.ERROR_NONE) := by
  refine ⟨⟨rfl, rfl, rfl, rfl, rfl⟩, ⟨rfl, rfl, rfl, rfl, rfl⟩, ⟨rfl, rfl, rfl⟩,
    ⟨?_, ?_, ?_, ?_, ?_⟩, rfl, ?_⟩
  · intro fmt hf
    cases mode with
    | LCR_VCSEL_OFF => rfl
    | LCR_VCSEL_ON => rfl
    | REF_SPAD_CHAR => exact absurd hf (by simp [formatFor])
    | RANGING => exact absurd hf (by simp [formatFor])
  · cases mode <;> rfl
  · cases mode <;> rfl
  · cases mode <;> rfl
  · cases mode <;> rfl
  · intro hh
    cases e <;> simp_all [VL53L1_Error.isHard]

/-- Witness for claim C7 at a concrete input: an injected timeout aborts
the reference characterisation with the timeout code and nothing written,
and a timeout is not the success code. -/
theorem claim_C7_hard_failure_aborts_witness :
    (VL53L1_run_ref_spad_char dev0
       ⟨fun _ => 16, fun _ _ => 0, some VL53L1_Error.ERROR_TIME_OUT⟩).1 =
      VL53L1_Error.ERROR_TIME_OUT ∧
    VL53L1_Error.ERROR_TIME_OUT ≠ VL53L1_Error.ERROR_NONE :=
  ⟨(claim_C7_hard_failure_aborts dev0 (fun _ => 16) (fun _ _ => 0) 140
      ⟨135, 2000, 1000⟩ (Except.ok ⟨135, 2000, 1000⟩) DeviceTestMode.LCR_VCSEL_ON
      DeviceSscArray.REF 36000 VL53L1_Error.ERROR_TIME_OUT).1.1,
   (claim_C7_hard_failure_aborts dev0 (fun _ => 16) (fun _ _ => 0) 140
      ⟨135, 2000, 1000⟩ (Except.ok ⟨135, 2000, 1000⟩) DeviceTestMode.LCR_VCSEL_ON
      DeviceSscArray.REF 36000 VL53L1_Error.ERROR_TIME_OUT).2.2.2.2.2 rfl⟩

theorem run_ref_spad_char_code (dev : DeviceState) (u : Region → Nat)
    (r : Region → Nat → Nat) :
    (VL53L1_run_ref_spad_char dev ⟨u, r, none⟩).1 = VL53L1_Error.ERROR_NONE := rfl

theorem run_ref_spad_char_status (dev : DeviceState) (u : Region → Nat)
    (r : Region → Nat → Nat) :
    (VL53L1_run_ref_spad_char dev ⟨u, r, none⟩).2.1 =
      (searchAll u r).outcome.toCalStatus := rfl

theorem run_ref_spad_char_customer (dev : DeviceState) (u : Region → Nat)
    (r : Region → Nat → Nat) :
    (VL53L1_run_ref_spad_char dev ⟨u, r, none⟩).2.2.customer_ref_spad =
      some (refSpadResultData u (searchAll u r)) := rfl

theorem run_ref_spad_char_g02 (dev : DeviceState) (u : Region → Nat)
    (r : Region → Nat → Nat) :
    (VL53L1_run_ref_spad_char dev ⟨u, r, none⟩).2.2.g02_ref_spad =
      some (refSpadResultData u (searchAll u r)) := rfl

theorem searchAll_all_low (u : Region → Nat) (r : Region → Nat → Nat)
    (hu : ∀ rg, min_ref_spads ≤ u rg) (hr : ∀ rg n, r rg n < lower_rate_mcps) :
    searchAll u r =
      ⟨regionOrder, Region.apertured10x,
        RegionOutcome.tooLow (u Region.apertured10x)
          (r Region.apertured10x (u Region.apertured10x))⟩ := by
  have key : ∀ rg, searchRegion (r rg) (u rg) =
      RegionOutcome.tooLow (u rg) (r rg (u rg)) := by
    intro rg
    rw [searchRegion_eq_tooLow_iff]
    exact ⟨hu rg, rfl, rfl, fun m _ _ => hr rg m⟩
  unfold searchAll
  rw [key Region.nonApertured, key Region.apertured5x, key Region.apertured10x]
  rfl

/-- Claim C2: the candidate regions are tried in the fixed deterministic
order non-apertured, then 5x-apertured, then 10x-apertured, with no other
order and no revisiting; a run whose transport always reports a rate below
the lower band terminates having selected the 10x-apertured region with
calibration status rate-too-low. -/
theorem claim_C2_escalation_order (dev : DeviceState) (env : RefSpadCharEnv) :
    (∃ k, 1 ≤ k ∧ k ≤ 3 ∧
       (searchAll env.usable env.rate).tried = regionOrder.take k) ∧
    ((∀ rg, min_ref_spads ≤ env.usable rg) →
     (∀ rg n, env.rate rg n < lower_rate_mcps) →
     env.fail = none →
     (VL53L1_run_ref_spad_char dev env).2.1 =
       VL53L1_Error.WARNING_REF_SPAD_CHAR_RATE_TOO_LOW ∧
     (searchAll env.usable env.rate).selectedRegion = Region.apertured10x ∧
     ∃ dd, (VL53L1_run_ref_spad_char dev env).2.2.customer_ref_spad = some dd ∧
           dd.ref_location = Region.apertured10x) := by
  obtain ⟨u, r, f⟩ := env
  constructor
  · exact searchAll_tried_deterministic u r
  · intro hu hr hf
    have hf2 : f = none := hf
    subst hf2
    refine ⟨?_, ?_, ?_⟩
    · rw [run_ref_spad_char_status, searchAll_all_low u r hu hr]
      rfl
    · rw [searchAll_all_low u r hu hr]
    · refine ⟨refSpadResultData u (searchAll u r), run_ref_spad_char_customer dev u r, ?_⟩
      rw [searchAll_all_low u r hu hr]
      rfl

/-- Witness for claim C2 at a concrete input: a transport reporting zero
rate everywhere ends at the 10x-apertured region with rate-too-low. -/
theorem claim_C2_escalation_order_witness :
    (VL53L1_run_ref_spad_char dev0 ⟨fun _ => 16, fun _ _ => 0, none⟩).2.1 =
      VL53L1_Error.WARNING_REF_SPAD_CHAR_RATE_TOO_LOW ∧
    (searchAll (fun _ => 16) (fun _ _ => 0)).selectedRegion = Region.apertured10x ∧
    ∃ dd, (VL53L1_run_ref_spad_char dev0
             ⟨fun _ => 16, fun _ _ => 0, none⟩).2.2.customer_ref_spad = some dd ∧
          dd.ref_location = Region.apertured10x :=
  (claim_C2_escalation_order dev0 ⟨fun _ => 16, fun _ _ => 0, none⟩).2
    (fun _ => of_decide_eq_true rfl) (fun _ _ => of_decide_eq_true rfl) rfl

/-- Claim C8: every reference characterisation run that persists a result,
including a run ending in the insufficient-elements warning, persists an
element count of at least 1, and when every region has fewer than 5 usable
elements the insufficient-elements warning is exposed to the caller. -/
theorem claim_C8_min_element_count (dev : DeviceState) (env : RefSpadCharEnv)
    (h : env.fail = none) :
    (∃ dd, (VL53L1_run_ref_spad_char dev env).2.2.customer_ref_spad = some dd ∧
           1 ≤ dd.num_ref_spads) ∧
    ((∀ rg, env.usable rg < min_ref_spads) →
       (VL53L1_run_ref_spad_char dev env).2.1 =
         VL53L1_Error.WARNING_REF_SPAD_CHAR_NOT_ENOUGH_SPADS) := by
  obtain ⟨u, r, f⟩ := env
  have hf2 : f = none := h
  subst hf2
  constructor
  · refine ⟨refSpadResultData u (searchAll u r),
      run_ref_spad_char_customer dev u r, ?_⟩
    show 1 ≤ max 1 (searchAll u r).outcome.bestCount
    exact Nat.le_max_left 1 _
  · intro hins
    rw [run_ref_spad_char_status, RegionOutcome.toCalStatus_eq_insufficient_iff,
      searchAll_outcome_insufficient_iff]
    exact hins

/-- Witness for claim C8 at a concrete input: with only 3 usable elements
in every region the run persists a count of at least 1 and exposes the
insufficient-elements warning. -/
theorem claim_C8_min_element_count_witness :
    (∃ dd, (VL53L1_run_ref_spad_char dev0
              ⟨fun _ => 3, fun _ _ => 0, none⟩).2.2.customer_ref_spad = some dd ∧
           1 ≤ dd.num_ref_spads) ∧
    (VL53L1_run_ref_spad_char dev0 ⟨fun _ => 3, fun _ _ => 0, none⟩).2.1 =
      VL53L1_Error.WARNING_REF_SPAD_CHAR_NOT_ENOUGH_SPADS :=
  ⟨(claim_C8_min_element_count dev0 ⟨fun _ => 3, fun _ _ => 0, none⟩ rfl).1,
   (claim_C8_min_element_count dev0 ⟨fun _ => 3, fun _ _ => 0, none⟩ rfl).2
     (fun _ => of_decide_eq_true rfl)⟩

/-- Claim C10: every persisting reference characterisation run writes the
selected data to two destinations: the in-handle customer structure and
the on-device G02 customer register group, with identical contents. -/
theorem claim_C10_dual_destination (dev : DeviceState) (env : RefSpadCharEnv)
    (h : env.fail = none) :
    ∃ dd, (VL53L1_run_ref_spad_char dev env).2.2.customer_ref_spad = some dd ∧
          (VL53L1_run_ref_spad_char dev env).2.2.g02_ref_spad = some dd := by
  obtain ⟨u, r, f⟩ := env
  have hf2 : f = none := h
  subst hf2
  exact ⟨refSpadResultData u (searchAll u r),
    run_ref_spad_char_customer dev u r, run_ref_spad_char_g02 dev u r⟩

/-- Witness for claim C10 at a concrete input. -/
theorem claim_C10_dual_destination_witness :
    ∃ dd, (VL53L1_run_ref_spad_char dev0
             ⟨fun _ => 16, fun _ _ => 0, none⟩).2.2.customer_ref_spad = some dd ∧
          (VL53L1_run_ref_spad_char dev0
             ⟨fun _ => 16, fun _ _ => 0, none⟩).2.2.g02_ref_spad = some dd :=
  claim_C10_dual_destination dev0 ⟨fun _ => 16, fun _ _ => 0, none⟩ rfl

theorem run_offset_calibration_ref_spad_unchanged (dev : DeviceState) (d : Int)
    (env : OffsetCalEnv) :
    (VL53L1_run_offset_calibration dev d env).2.2.customer_ref_spad =
      dev.customer_ref_spad ∧
    (VL53L1_run_offset_calibration dev d env).2.2.g02_ref_spad = dev.g02_ref_spad := by
  obtain ⟨st1, st2⟩ := env
  cases st1 with
  | error e => exact ⟨rfl, rfl⟩
  | ok m1 => cases st2 <;> exact ⟨rfl, rfl⟩

theorem run_spad_rate_map_ref_spad_unchanged (dev : DeviceState)
    (mode : DeviceTestMode) (a : DeviceSscArray) (t : Nat)
    (transport : Except VL53L1_Error (List Nat)) :
    (VL53L1_run_spad_rate_map dev mode a t transport).2.1.customer_ref_spad =
      dev.customer_ref_spad ∧
    (VL53L1_run_spad_rate_map dev mode a t transport).2.1.g02_ref_spad =
      dev.g02_ref_spad := by
  cases mode <;> cases transport <;> exact ⟨rfl, rfl⟩

theorem run_device_test_ref_spad_unchanged (dev : DeviceState)
    (mode : DeviceTestMode) (transport : Except VL53L1_Error (List Nat)) :
    (VL53L1_run_device_test dev mode transport).2.1.customer_ref_spad =
      dev.customer_ref_spad ∧
    (VL53L1_run_device_test dev mode transport).2.1.g02_ref_spad =
      dev.g02_ref_spad := by
  cases transport <;> exact ⟨rfl, rfl⟩

/-- Claim C9: after every write of persisted reference detector data the
element count equals the number of set bits in the enable mask, and every
operation of the calibration core preserves this invariant, in both the
customer structure and the G02 register group copy. -/
theorem claim_C9_enable_mask_invariant (dev : DeviceState) (env : RefSpadCharEnv)
    (d : Int) (oenv : OffsetCalEnv) (mode : DeviceTestMode) (a : DeviceSscArray)
    (t : Nat) (transport : Except VL53L1_Error (List Nat)) :
    (env.fail = none →
       refSpadInvariant (VL53L1_run_ref_spad_char dev env).2.2.customer_ref_spad ∧
       refSpadInvariant (VL53L1_run_ref_spad_char dev env).2.2.g02_ref_spad) ∧
    (refSpadInvariant dev.customer_ref_spad →
       refSpadInvariant (VL53L1_run_ref_spad_char dev env).2.2.customer_ref_spad) ∧
    (refSpadInvariant dev.g02_ref_spad →
       refSpadInvariant (VL53L1_run_ref_spad_char dev env).2.2.g02_ref_spad) ∧
    (refSpadInvariant dev.customer_ref_spad →
       refSpadInvariant
         (VL53L1_run_offset_calibration dev d oenv).2.2.customer_ref_spad) ∧
    (refSpadInvariant dev.g02_ref_spad →
       refSpadInvariant (VL53L1_run_offset_calibration dev d oenv).2.2.g02_ref_spad) ∧
    (refSpadInvariant dev.customer_ref_spad →
       refSpadInvariant
         (VL53L1_run_spad_rate_map dev mode a t transport).2.1.customer_ref_spad) ∧
    (refSpadInvariant dev.g02_ref_spad →
       refSpadInvariant
         (VL53L1_run_spad_rate_map dev mode a t transport).2.1.g02_ref_spad) ∧
    (refSpadInvariant dev.customer_ref_spad →
       refSpadInvariant
         (VL53L1_run_device_test dev mode transport).2.1.customer_ref_spad) ∧
    (refSpadInvariant dev.g02_ref_spad →
       refSpadInvariant (VL53L1_run_device_test dev mode transport).2.1.g02_ref_spad) := by
  obtain ⟨u, r, f⟩ := env
  refine ⟨?_, ?_, ?_, ?_, ?_, ?_, ?_, ?_, ?_⟩
  · intro hf
    have hf2 : f = none := hf
    subst hf2
    exact ⟨refSpadResultData_invariant u _, refSpadResultData_invariant u _⟩
  · intro h
    cases f with
    | none => exact refSpadResultData_invariant u _
    | some e => exact h
  · intro h
    cases f with
    | none => exact refSpadResultData_invariant u _
    | some e => exact h
  · intro h
    rw [(run_offset_calibration_ref_spad_unchanged dev d oenv).1]
    exact h
  · intro h
    rw [(run_offset_calibration_ref_spad_unchanged dev d oenv).2]
    exact h
  · intro h
    rw [(run_spad_rate_map_ref_spad_unchanged dev mode a t transport).1]
    exact h
  · intro h
    rw [(run_spad_rate_map_ref_spad_unchanged dev mode a t transport).2]
    exact h
  · intro h
    rw [(run_device_test_ref_spad_unchanged dev mode transport).1]
    exact h
  · intro h
    rw [(run_device_test_ref_spad_unchanged dev mode transport).2]
    exact h

/-- Witness for claim C9 at a concrete input: the invariant holds in both
destinations after a persisting characterisation run. -/
theorem claim_C9_enable_mask_invariant_witness :
    refSpadInvariant (VL53L1_run_ref_spad_char dev0
      ⟨fun _ => 16, fun _ _ => 0, none⟩).2.2.customer_ref_spad ∧
    refSpadInvariant (VL53L1_run_ref_spad_char dev0
      ⟨fun _ => 16, fun _ _ => 0, none⟩).2.2.g02_ref_spad :=
  (claim_C9_enable_mask_invariant dev0 ⟨fun _ => 16, fun _ _ => 0, none⟩ 140
      ⟨Except.ok ⟨135, 2000, 1000⟩, Except.ok ⟨135, 2000, 1000⟩⟩
      DeviceTestMode.LCR_VCSEL_ON DeviceSscArray.REF 36000 (Except.ok [])).1 rfl

/-- Claim C3: the rate map decodes every produced per-element value in the
1.15 fixed-point format for LCR_VCSEL_OFF and in the 9.7 format for
LCR_VCSEL_ON, tagging each value with its format, and there is a raw
result block on which the two decodings differ. -/
theorem claim_C3_rate_map_formats (dev : DeviceState) (a : DeviceSscArray)
    (t : Nat) (raw : List Nat) :
    ((VL53L1_run_spad_rate_map dev DeviceTestMode.LCR_VCSEL_OFF a t
        (Except.ok raw)).2.2 =
      raw.map fun w => ({ raw := w % 65536, format := RateFormat.fmt_1_15 } : TaggedRate)) ∧
    ((VL53L1_run_spad_rate_map dev DeviceTestMode.LCR_VCSEL_ON a t
        (Except.ok raw)).2.2 =
      raw.map fun w => ({ raw := w % 65536, format := RateFormat.fmt_9_7 } : TaggedRate)) ∧
    (∀ tr ∈ (VL53L1_run_spad_rate_map dev DeviceTestMode.LCR_VCSEL_OFF a t
        (Except.ok raw)).2.2,
      tr.format = RateFormat.fmt_1_15 ∧ tr.value = (tr.raw : ℚ) / 2 ^ 15) ∧
    (∀ tr ∈ (VL53L1_run_spad_rate_map dev DeviceTestMode.LCR_VCSEL_ON a t
        (Except.ok raw)).2.2,
      tr.format = RateFormat.fmt_9_7 ∧ tr.value = (tr.raw : ℚ) / 2 ^ 7) ∧
    (∃ raw0 : List Nat,
      (VL53L1_run_spad_rate_map dev DeviceTestMode.LCR_VCSEL_OFF a t
          (Except.ok raw0)).2.2.map TaggedRate.value ≠
      (VL53L1_run_spad_rate_map dev DeviceTestMode.LCR_VCSEL_ON a t
          (Except.ok raw0)).2.2.map TaggedRate.value) := by
  refine ⟨rfl, rfl, ?_, ?_, ?_⟩
  · intro tr htr
    rw [run_spad_rate_map_off_ok] at htr
    simp only [List.mem_map] at htr
    obtain ⟨w, _, hw⟩ := htr
    rw [← hw]
    exact ⟨rfl, rfl⟩
  · intro tr htr
    rw [run_spad_rate_map_on_ok] at htr
    simp only [List.mem_map] at htr
    obtain ⟨w, _, hw⟩ := htr
    rw [← hw]
    exact ⟨rfl, rfl⟩
  · refine ⟨[128], ?_⟩
    rw [run_spad_rate_map_off_ok, run_spad_rate_map_on_ok]
    intro hcontra
    simp only [List.map_map, List.map_cons, List.map_nil, Function.comp] at hcontra
    have h1 := List.head_eq_of_cons_eq hcontra
    rw [TaggedRate.value, TaggedRate.value] at h1
    norm_num [RateFormat.fracBits] at h1

/-- Witness for claim C3 at a concrete input: a raw word decodes to the
1.15-tagged value in illumination-off mode. -/
theorem claim_C3_rate_map_formats_witness :
    (VL53L1_run_spad_rate_map dev0 DeviceTestMode.LCR_VCSEL_OFF DeviceSscArray.REF
        36000 (Except.ok [7])).2.2 =
      [({ raw := 7, format := RateFormat.fmt_1_15 } : TaggedRate)] :=
  (claim_C3_rate_map_formats dev0 DeviceSscArray.REF 36000 [7]).1

/-- Claim C5: a calibration run that completes without a hard failure but
with a quality warning returns the success result code; the degraded
classification travels only in the calibration status channel, and a best
effort result is still persisted. -/
theorem claim_C5_warning_result_code (dev : DeviceState) (env : RefSpadCharEnv)
    (d : Int) (oenv : OffsetCalEnv) :
    (env.fail = none →
       ((VL53L1_run_ref_spad_char dev env).2.1).isWarning = true →
       (VL53L1_run_ref_spad_char dev env).1 = VL53L1_Error.ERROR_NONE ∧
       ∃ dd, (VL53L1_run_ref_spad_char dev env).2.2.customer_ref_spad = some dd) ∧
    (∀ m1 m2, oenv.stage1 = Except.ok m1 → oenv.stage2 = Except.ok m2 →
       ((VL53L1_run_offset_calibration dev d oenv).2.1).isWarning = true →
       (VL53L1_run_offset_calibration dev d oenv).1 = VL53L1_Error.ERROR_NONE ∧
       ∃ s1 s2,
         (VL53L1_run_offset_calibration dev d oenv).2.2.mm1_offset = some s1 ∧
         (VL53L1_run_offset_calibration dev d oenv).2.2.mm2_offset = some s2) := by
  obtain ⟨u, r, f⟩ := env
  obtain ⟨st1, st2⟩ := oenv
  constructor
  · intro hf _
    have hf2 : f = none := hf
    subst hf2
    exact ⟨rfl, _, rfl⟩
  · intro m1 m2 h1 h2 _
    have h1b : st1 = Except.ok m1 := h1
    have h2b : st2 = Except.ok m2 := h2
    subst h1b
    subst h2b
    exact ⟨rfl, _, _, rfl, rfl⟩

/-- Witness for claim C5 at a concrete input: an insufficient-elements
warning run still returns the success code and persists a result. -/
theorem claim_C5_warning_result_code_witness :
    (VL53L1_run_ref_spad_char dev0 ⟨fun _ => 3, fun _ _ => 0, none⟩).1 =
      VL53L1_Error.ERROR_NONE ∧
    ∃ dd, (VL53L1_run_ref_spad_char dev0
             ⟨fun _ => 3, fun _ _ => 0, none⟩).2.2.customer_ref_spad = some dd :=
  (claim_C5_warning_result_code dev0 ⟨fun _ => 3, fun _ _ => 0, none⟩ 140
      ⟨Except.ok ⟨135, 2000, 1000⟩, Except.ok ⟨135, 2000, 1000⟩⟩).1 rfl
    (of_decide_eq_true rfl)

/-- Region capacities used by the counterexample transport. -/
def cexUsable : Region → Nat := fun _ => 16

/-- Counterexample transport rates: the non-apertured region is far above
the band at every count while both apertured regions are silent. -/
def cexRate : Region → Nat → Nat := fun rg _ =>
  match rg with
  | Region.nonApertured => 50 * 65536
  | _ => 0

/-- Counterexample to claim C4 as stated: this run reports rate-too-low,
yet it is not the case that every region was exhausted with its rate still
below 10.0 Mcps - the non-apertured region was abandoned because its rate
exceeded the band already at the minimum viable count, so the claimed
biconditional for the rate-too-low status is false on this input. -/
theorem claim_C4_counterexample :
    (VL53L1_run_ref_spad_char dev0 ⟨cexUsable, cexRate, none⟩).2.1 =
      VL53L1_Error.WARNING_REF_SPAD_CHAR_RATE_TOO_LOW ∧
    ¬ (∀ rg, min_ref_spads ≤ cexUsable rg ∧
        ∀ n, min_ref_spads ≤ n → n ≤ cexUsable rg →
          cexRate rg n < lower_rate_mcps) := by
  constructor
  · decide
  · intro h
    have h5 := (h Region.nonApertured).2 5 (by decide) (by decide)
    exact absurd h5 (by decide)

/-- Claim C4 (amended): for every terminating characterisation run the
returned calibration status classifies the outcome of the selected region
against the fixed thresholds: pass iff the search lands on a first count
whose rate lies within the 10.0 to 40.0 Mcps band; rate-too-low iff the
selected region is exhausted with every viable count still below 10.0
Mcps; rate-too-high iff the first count reaching the band exceeds 40.0
Mcps; insufficient-elements iff fewer than 5 usable elements exist in
every region. -/
theorem claim_C4_status_thresholds (dev : DeviceState) (u : Region → Nat)
    (r : Region → Nat → Nat) :
    ((VL53L1_run_ref_spad_char dev ⟨u, r, none⟩).2.1 = VL53L1_Error.ERROR_NONE ↔
      (∃ n, min_ref_spads ≤ n ∧ n ≤ u (searchAll u r).selectedRegion ∧
        lower_rate_mcps ≤ r (searchAll u r).selectedRegion n ∧
        r (searchAll u r).selectedRegion n ≤ upper_rate_mcps ∧
        ∀ m, min_ref_spads ≤ m → m < n →
          r (searchAll u r).selectedRegion m < lower_rate_mcps)) ∧
    ((VL53L1_run_ref_spad_char dev ⟨u, r, none⟩).2.1 =
        VL53L1_Error.WARNING_REF_SPAD_CHAR_RATE_TOO_LOW ↔
      (min_ref_spads ≤ u (searchAll u r).selectedRegion ∧
        ∀ n, min_ref_spads ≤ n → n ≤ u (searchAll u r).selectedRegion →
          r (searchAll u r).selectedRegion n < lower_rate_mcps)) ∧
    ((VL53L1_run_ref_spad_char dev ⟨u, r, none⟩).2.1 =
        VL53L1_Error.WARNING_REF_SPAD_CHAR_RATE_TOO_HIGH ↔
      (∃ n, min_ref_spads ≤ n ∧ n ≤ u (searchAll u r).selectedRegion ∧
        upper_rate_mcps < r (searchAll u r).selectedRegion n ∧
        ∀ m, min_ref_spads ≤ m → m < n →
          r (searchAll u r).selectedRegion m < lower_rate_mcps)) ∧
    ((VL53L1_run_ref_spad_char dev ⟨u, r, none⟩).2.1 =
        VL53L1_Error.WARNING_REF_SPAD_CHAR_NOT_ENOUGH_SPADS ↔
      ∀ rg, u rg < min_ref_spads) := by
  have hco := searchAll_outcome_coherent u r
  refine ⟨?_, ?_, ?_, ?_⟩
  · rw [run_ref_spad_char_status, RegionOutcome.toCalStatus_eq_none_iff]
    constructor
    · intro ⟨n, rt, h⟩
      rw [hco, searchRegion_eq_inBand_iff] at h
      exact ⟨n, h.1, h.2.1, h.2.2.2.1, h.2.2.2.2.1, h.2.2.2.2.2⟩
    · intro ⟨n, h1, h2, h3, h4, h5⟩
      refine ⟨n, r (searchAll u r).selectedRegion n, ?_⟩
      rw [hco, searchRegion_eq_inBand_iff]
      exact ⟨h1, h2, rfl, h3, h4, h5⟩
  · rw [run_ref_spad_char_status, RegionOutcome.toCalStatus_eq_tooLow_iff]
    constructor
    · intro ⟨n, rt, h⟩
      rw [hco, searchRegion_eq_tooLow_iff] at h
      exact ⟨h.1, h.2.2.2⟩
    · intro ⟨h1, h2⟩
      refine ⟨u (searchAll u r).selectedRegion,
        r (searchAll u r).selectedRegion (u (searchAll u r).selectedRegion), ?_⟩
      rw [hco, searchRegion_eq_tooLow_iff]
      exact ⟨h1, rfl, rfl, h2⟩
  · rw [run_ref_spad_char_status, RegionOutcome.toCalStatus_eq_tooHigh_iff]
    constructor
    · intro ⟨n, rt, h⟩
      rw [hco, searchRegion_eq_tooHigh_iff] at h
      exact ⟨n, h.1, h.2.1, h.2.2.2.1, h.2.2.2.2⟩
    · intro ⟨n, h1, h2, h3, h4⟩
      refine ⟨n, r (searchAll u r).selectedRegion n, ?_⟩
      rw [hco, searchRegion_eq_tooHigh_iff]
      exact ⟨h1, h2, rfl, h3, h4⟩
  · rw [run_ref_spad_char_status, RegionOutcome.toCalStatus_eq_insufficient_iff,
      searchAll_outcome_insufficient_iff]

/-- Witness for the amended claim C4 at a concrete input: with every rate
below the band everywhere, the classification is rate-too-low. -/
theorem claim_C4_status_thresholds_witness :
    (VL53L1_run_ref_spad_char dev0 ⟨fun _ => 16, fun _ _ => 0, none⟩).2.1 =
      VL53L1_Error.WARNING_REF_SPAD_CHAR_RATE_TOO_LOW :=
  ((claim_C4_status_thresholds dev0 (fun _ => 16) (fun _ _ => 0)).2.1).mpr
    ⟨of_decide_eq_true rfl, fun _ _ _ => of_decide_eq_true rfl⟩
